import Mathlib

/-
  Shallow embedding of the context-lens document knowledge base
  (package `mcp_knowledge_base`): the document service orchestration layer
  (services/document_service.py), the tool boundary (server.py), and the
  collaborators they call.  Collaborators whose sources are not part of this
  tree (the vector store, the chunker, the validation helpers) are modelled
  from the specification; each such definition says so in its doc comment.
  Scores and distances are modelled as rationals, text as `String` or
  `List Char`.
-/

namespace ContextLens

/-- Document metadata record, one per ingested file (models the
`DocumentMetadata` data model: id, file_path, file_name, file_size,
file_type, content_hash, ingestion_timestamp, chunk_count).  The timestamp
is modelled as an optional abstract tick. -/
structure DocumentMetadata where
  id : String
  file_path : String
  file_name : String
  file_size : Nat
  file_type : String
  content_hash : String
  ingestion_timestamp : Option Nat
  chunk_count : Nat
deriving Repr, DecidableEq

/-- A chunk-level match as returned by the vector store's `search_vectors`
(models `VectorSearchResult`): owning document id, raw chunk content, and the
raw distance `score`. -/
structure VectorSearchResult where
  document_id : String
  content : String
  score : ℚ
deriving Repr, DecidableEq

/-- In-memory search result (models the `SearchResult` dataclass built in
`DocumentService.search_documents`). -/
structure SearchResult where
  document_id : String
  document_path : String
  relevance_score : ℚ
  content_excerpt : String
  metadata : DocumentMetadata
deriving Repr, DecidableEq

/-- Rounding to 4 decimal places, modelling Python `round(x, 4)` as applied
to the relevance score when the response dict is built.  (Python rounds
half-to-even; this model rounds half up.  The two agree away from exact
ties, and no statement below depends on a tie.) -/
def round4 (x : ℚ) : ℚ := ((round (x * 10000) : ℤ) : ℚ) / 10000

/-- Serialized search-result entry (models the dict appended to
`results_list` in `DocumentService.search_documents`, with the nested
`metadata` dict flattened into `meta_*` fields). -/
structure SearchResultDict where
  document_id : String
  document_path : String
  relevance_score : ℚ
  content_excerpt : String
  meta_id : String
  meta_file_name : String
  meta_file_type : String
  meta_file_size : Nat
  meta_ingestion_timestamp : Option Nat
  meta_chunk_count : Nat
deriving Repr, DecidableEq

/-- Content-excerpt construction from `DocumentService.search_documents`:
`excerpt = vector_result.content; if len(excerpt) > 200: excerpt =
excerpt[:200] + "..."`. -/
def makeExcerpt (content : String) : String :=
  if content.length > 200 then content.take 200 ++ "..." else content

/-- One iteration of the result-assembly loop in
`DocumentService.search_documents`: resolve the document metadata via
`get_document_metadata`; a match whose metadata cannot be resolved
contributes nothing (the `if doc_metadata:` guard). -/
def buildSearchResult (getMeta : String → Option DocumentMetadata)
    (vr : VectorSearchResult) : Option SearchResult :=
  match getMeta vr.document_id with
  | none => none
  | some m =>
      some { document_id := vr.document_id
             document_path := m.file_path
             relevance_score := 1 - vr.score
             content_excerpt := makeExcerpt vr.content
             metadata := m }

/-- The whole result-assembly loop of `DocumentService.search_documents`. -/
def buildSearchResults (getMeta : String → Option DocumentMetadata)
    (vrs : List VectorSearchResult) : List SearchResult :=
  vrs.filterMap (buildSearchResult getMeta)

/-- The serialization loop of `DocumentService.search_documents` (the
`results_list` construction), including the `round(relevance_score, 4)`. -/
def serializeSearchResult (r : SearchResult) : SearchResultDict :=
  { document_id := r.document_id
    document_path := r.document_path
    relevance_score := round4 r.relevance_score
    content_excerpt := r.content_excerpt
    meta_id := r.metadata.id
    meta_file_name := r.metadata.file_name
    meta_file_type := r.metadata.file_type
    meta_file_size := r.metadata.file_size
    meta_ingestion_timestamp := r.metadata.ingestion_timestamp
    meta_chunk_count := r.metadata.chunk_count }

/-- Response dict of `DocumentService.search_documents`: success payload
(`results`, `query`, `result_count`, `message`) or the error triple. -/
structure SearchResponse where
  success : Bool
  results : Option (List SearchResultDict) := none
  query : Option String := none
  result_count : Option Nat := none
  message : Option String := none
  error_type : Option String := none
  error_message : Option String := none
  error_details : Option (List (String × String)) := none
deriving Repr, DecidableEq

/-- Python `str.strip()`: drop leading and trailing whitespace.  Modelled
executably over the character list. -/
def pyStrip (s : String) : String :=
  String.mk (((s.toList.dropWhile Char.isWhitespace).reverse.dropWhile
    Char.isWhitespace).reverse)

/-- `DocumentService.search_documents`.  Collaborator behaviour is passed
explicitly: `genEmbedding` models `embedding_service.generate_embedding`
(`.error msg` = raised exception, `.ok []` = falsy result), `dbSearch`
models `db_manager.search_vectors`, `getMeta` models
`db_manager.get_document_metadata`.  Exceptions escaping a collaborator are
caught by the surrounding `except` and turned into the
`document_search_error` envelope. -/
def searchDocumentsService (query : String) (limit : Nat)
    (genEmbedding : String → Except String (List ℚ))
    (dbSearch : List ℚ → Nat → Except String (List VectorSearchResult))
    (getMeta : String → Option DocumentMetadata) : SearchResponse :=
  if pyStrip query = "" then
    { success := false
      error_type := some "invalid_query"
      error_message := some "Search query cannot be empty"
      error_details := some [("query", query)] }
  else
    match genEmbedding (pyStrip query) with
    | .error e =>
        { success := false
          error_type := some "document_search_error"
          error_message := some ("Failed to search documents: " ++ e)
          error_details := some [("query", query), ("limit", toString limit), ("error", e)] }
    | .ok queryEmbedding =>
        if queryEmbedding = [] then
          { success := false
            error_type := some "embedding_generation_error"
            error_message := some "Failed to generate embedding for query"
            error_details := some [("query", query)] }
        else
          match dbSearch queryEmbedding limit with
          | .error e =>
              { success := false
                error_type := some "document_search_error"
                error_message := some ("Failed to search documents: " ++ e)
                error_details := some [("query", query), ("limit", toString limit), ("error", e)] }
          | .ok vectorResults =>
              let resultsList :=
                (buildSearchResults getMeta vectorResults).map serializeSearchResult
              { success := true
                results := some resultsList
                query := some query
                result_count := some resultsList.length
                message := some ("Found " ++ toString resultsList.length ++ " relevant documents") }

/-! Helper lemmas about `round4` and `filterMap`. -/

theorem round_mono_of_le {x y : ℚ} (h : x ≤ y) : round x ≤ round y := by
  rw [round_eq, round_eq]
  exact Int.floor_le_floor (by linarith)

theorem round4_mono {x y : ℚ} (h : x ≤ y) : round4 x ≤ round4 y := by
  unfold round4
  have : round (x * 10000) ≤ round (y * 10000) :=
    round_mono_of_le (by nlinarith)
  have hc : ((round (x * 10000) : ℤ) : ℚ) ≤ ((round (y * 10000) : ℤ) : ℚ) := by
    exact_mod_cast this
  linarith

theorem round4_nonneg {x : ℚ} (h : 0 ≤ x) : 0 ≤ round4 x := by
  have h0 : round ((0 : ℚ) * 10000) = 0 := by norm_num
  have := round_mono_of_le (x := (0 : ℚ) * 10000) (y := x * 10000) (by nlinarith)
  rw [h0] at this
  unfold round4
  have hc : (0 : ℚ) ≤ ((round (x * 10000) : ℤ) : ℚ) := by exact_mod_cast this
  positivity

theorem round4_le_one {x : ℚ} (h : x ≤ 1) : round4 x ≤ 1 := by
  have h1 : round ((1 : ℚ) * 10000) = 10000 := by norm_num
  have := round_mono_of_le (x := x * 10000) (y := (1 : ℚ) * 10000) (by nlinarith)
  rw [h1] at this
  unfold round4
  have hc : ((round (x * 10000) : ℤ) : ℚ) ≤ 10000 := by exact_mod_cast this
  linarith

theorem length_filterMap_eq_length_filter {α β : Type} (f : α → Option β)
    (l : List α) :
    (l.filterMap f).length = (l.filter (fun a => (f a).isSome)).length := by
  induction l with
  | nil => rfl
  | cons a t ih =>
      cases h : f a <;>
        simp [List.filterMap_cons, h, List.filter_cons, ih]

/-- Concrete metadata record used by the concrete-input theorems below. -/
def sampleMeta : DocumentMetadata :=
  { id := "doc1"
    file_path := "/tmp/a.txt"
    file_name := "a.txt"
    file_size := 10
    file_type := "text"
    content_hash := "h"
    ingestion_timestamp := some 0
    chunk_count := 1 }

/-- C4: with the fixed display length 200, `content_excerpt` is the chunk
content itself when the content has at most 200 characters, and otherwise
the first 200 characters followed by the ellipsis marker `"..."`. -/
theorem content_excerpt_truncation (c : String) :
    (c.length ≤ 200 → makeExcerpt c = c) ∧
    (200 < c.length → makeExcerpt c = c.take 200 ++ "...") := by
  constructor
  · intro h
    simp [makeExcerpt, Nat.not_lt.mpr h]
  · intro h
    simp [makeExcerpt, h]

/-- Long concrete content used to exercise the truncating branch. -/
def longContent : String := String.mk (List.replicate 300 'a')

set_option maxRecDepth 4000 in
theorem content_excerpt_truncation_witness :
    makeExcerpt "short" = "short" ∧
    makeExcerpt longContent = longContent.take 200 ++ "..." :=
  ⟨(content_excerpt_truncation "short").1 (by decide),
   (content_excerpt_truncation longContent).2 (by decide)⟩

/-- Chunk record persisted in the store's chunks table (models the
`DocumentChunk` row: id, owning document, position, content, embedding). -/
structure ChunkRecord where
  id : String
  document_id : String
  chunk_index : Nat
  content : String
  embedding : List ℚ
deriving Repr, DecidableEq

/-- State of the vector store: the documents table (kept in ingestion
order) and the chunks table. -/
structure StoreState where
  documents : List DocumentMetadata
  chunks : List ChunkRecord
deriving Repr, DecidableEq

/-- Modelled from the spec: `LanceDBManager.search_vectors`
(storage/lancedb_manager.py is not among the sources).  It returns up to
`limit` chunk-level matches ordered by ascending distance between the query
vector and each stored chunk embedding, each carrying the source
`document_id`, the raw `content`, and the raw distance `score`; ties are
broken by `chunk_index` then `document_id`.  The distance metric is a
parameter, since the store contract is distance-metric-agnostic. -/
def searchVectors (dist : List ℚ → List ℚ → ℚ) (s : StoreState)
    (queryVec : List ℚ) (limit : Nat) : List VectorSearchResult :=
  ((s.chunks.mergeSort (fun a b =>
      decide (dist queryVec a.embedding < dist queryVec b.embedding ∨
        (dist queryVec a.embedding = dist queryVec b.embedding ∧
          (a.chunk_index < b.chunk_index ∨
            (a.chunk_index = b.chunk_index ∧
              a.document_id ≤ b.document_id)))))).map
    (fun c => { document_id := c.document_id
                content := c.content
                score := dist queryVec c.embedding })).take limit

/-- Relevance equals `1 - distance` on the in-memory result object: the
`relevance_score=1.0 - vector_result.score` assignment. -/
theorem buildSearchResult_relevance
    {getMeta : String → Option DocumentMetadata} {vr : VectorSearchResult}
    {r : SearchResult} (h : buildSearchResult getMeta vr = some r) :
    r.relevance_score = 1 - vr.score := by
  unfold buildSearchResult at h
  cases hm : getMeta vr.document_id <;> rw [hm] at h
  · cases h
  · cases h
    rfl

/-- C3 (amended): for a store match with raw distance `d`, the orchestrator
builds the in-memory result with relevance exactly `1 - d` and serializes
it as `round4 (1 - d)` (i.e. `1 - d` rounded to 4 decimal places), while
the store itself hands back raw distances untouched — the
distance-to-similarity conversion lives in the orchestration layer, not in
the store. -/
theorem distance_to_similarity_in_orchestrator :
    (∀ (getMeta : String → Option DocumentMetadata)
        (vr : VectorSearchResult) (r : SearchResult),
        buildSearchResult getMeta vr = some r →
        r.relevance_score = 1 - vr.score ∧
        (serializeSearchResult r).relevance_score = round4 (1 - vr.score)) ∧
    (∀ (dist : List ℚ → List ℚ → ℚ) (s : StoreState) (qv : List ℚ)
        (limit : Nat) (r : VectorSearchResult),
        r ∈ searchVectors dist s qv limit →
        ∃ c, c ∈ s.chunks ∧ r.score = dist qv c.embedding) := by
  constructor
  · intro getMeta vr r h
    have hrel := buildSearchResult_relevance h
    exact ⟨hrel, by rw [serializeSearchResult, hrel]⟩
  · intro dist s qv limit r hmem
    unfold searchVectors at hmem
    have hmem' := List.take_subset _ _ hmem
    rcases List.mem_map.mp hmem' with ⟨c, hc, hfc⟩
    refine ⟨c, List.mem_mergeSort.mp hc, ?_⟩
    rw [← hfc]

/-- A concrete match with distance 0 used by the concrete-input theorems. -/
def vrHit : VectorSearchResult := { document_id := "doc1", content := "c1", score := 0 }

/-- The in-memory result the orchestrator builds for `vrHit` when metadata
resolves to `sampleMeta`. -/
def builtHit : SearchResult :=
  { document_id := "doc1"
    document_path := "/tmp/a.txt"
    relevance_score := 1 - 0
    content_excerpt := makeExcerpt "c1"
    metadata := sampleMeta }

/-- A concrete single-chunk store. -/
def chunkRec : ChunkRecord :=
  { id := "ch1", document_id := "doc1", chunk_index := 0
    content := "c1", embedding := [0] }

/-- A concrete store holding one document with one chunk. -/
def storeOne : StoreState := { documents := [sampleMeta], chunks := [chunkRec] }

/-- A degenerate distance metric used at concrete inputs. -/
def distZero : List ℚ → List ℚ → ℚ := fun _ _ => 0

theorem distance_to_similarity_in_orchestrator_witness :
    (builtHit.relevance_score = 1 - vrHit.score ∧
      (serializeSearchResult builtHit).relevance_score = round4 (1 - vrHit.score)) ∧
    (∃ c, c ∈ storeOne.chunks ∧
      ({ document_id := "doc1", content := "c1",
         score := distZero [] [0] } : VectorSearchResult).score = distZero [] c.embedding) :=
  ⟨distance_to_similarity_in_orchestrator.1 (fun _ => some sampleMeta) vrHit builtHit rfl,
   distance_to_similarity_in_orchestrator.2 distZero storeOne [] 1 _
     (by simp [searchVectors, storeOne, chunkRec, distZero, List.mergeSort_singleton])⟩

/-- A concrete match with raw distance `1/3`. -/
def vrThird : VectorSearchResult := { document_id := "doc1", content := "c", score := 1/3 }

/-- The in-memory result the orchestrator builds for `vrThird`. -/
def builtThird : SearchResult :=
  { document_id := "doc1"
    document_path := "/tmp/a.txt"
    relevance_score := 1 - 1/3
    content_excerpt := makeExcerpt "c"
    metadata := sampleMeta }

/-- C3 (counterexample): at raw distance `1/3` the service reports
relevance `0.6667`, which differs from `1 - 1/3 = 2/3`; the reported value
is the rounded conversion, not exactly `1 − d`. -/
theorem reported_relevance_is_rounded_not_exact :
    (searchDocumentsService "q" 10 (fun _ => .ok [1])
        (fun _ _ => .ok [vrThird]) (fun _ => some sampleMeta)).results =
      some [serializeSearchResult builtThird] ∧
    (serializeSearchResult builtThird).relevance_score = 6667 / 10000 ∧
    (6667 / 10000 : ℚ) ≠ 1 - vrThird.score := by
  refine ⟨rfl, ?_, ?_⟩
  · show round4 (1 - 1/3) = 6667 / 10000
    norm_num [round4, round_eq]
  · show (6667 / 10000 : ℚ) ≠ 1 - 1/3
    norm_num

/-- C2 (amended): the reported `relevance_score` is `1 − distance` rounded
to 4 decimal places; it lies in `[0, 1]` whenever the store's raw distance
lies in `[0, 1]`, and it is antitone in the distance, so higher values mean
more relevant. -/
theorem relevance_score_unit_interval :
    (∀ (getMeta : String → Option DocumentMetadata)
        (vr : VectorSearchResult) (r : SearchResult),
        buildSearchResult getMeta vr = some r →
        0 ≤ vr.score → vr.score ≤ 1 →
        0 ≤ (serializeSearchResult r).relevance_score ∧
        (serializeSearchResult r).relevance_score ≤ 1) ∧
    (∀ d d' : ℚ, d ≤ d' → round4 (1 - d') ≤ round4 (1 - d)) := by
  constructor
  · intro getMeta vr r h h0 h1
    have hrel := buildSearchResult_relevance h
    have hs : (serializeSearchResult r).relevance_score = round4 (1 - vr.score) := by
      rw [serializeSearchResult, hrel]
    rw [hs]
    exact ⟨round4_nonneg (by linarith), round4_le_one (by linarith)⟩
  · intro d d' h
    exact round4_mono (by linarith)

theorem relevance_score_unit_interval_witness :
    (0 ≤ (serializeSearchResult builtHit).relevance_score ∧
      (serializeSearchResult builtHit).relevance_score ≤ 1) ∧
    round4 (1 - 1) ≤ round4 (1 - 0) :=
  ⟨relevance_score_unit_interval.1 (fun _ => some sampleMeta) vrHit builtHit rfl
      (le_refl 0) zero_le_one,
   relevance_score_unit_interval.2 0 1 zero_le_one⟩

/-- A concrete match with raw distance `2`. -/
def vrFar : VectorSearchResult := { document_id := "doc1", content := "c", score := 2 }

/-- The in-memory result the orchestrator builds for `vrFar`. -/
def builtFar : SearchResult :=
  { document_id := "doc1"
    document_path := "/tmp/a.txt"
    relevance_score := 1 - 2
    content_excerpt := makeExcerpt "c"
    metadata := sampleMeta }

/-- C2 (counterexample): a store match with raw distance `2` (possible for
an unbounded metric such as Euclidean distance, and the store contract is
metric-agnostic) is reported with `relevance_score = -1`, outside `[0,1]`:
the orchestrator applies `1 - distance` with no clamping. -/
theorem relevance_score_escapes_unit_interval :
    (searchDocumentsService "q" 10 (fun _ => .ok [1])
        (fun _ _ => .ok [vrFar]) (fun _ => some sampleMeta)).results =
      some [serializeSearchResult builtFar] ∧
    (serializeSearchResult builtFar).relevance_score = -1 ∧
    ¬ (0 ≤ (-1 : ℚ)) := by
  refine ⟨rfl, ?_, by norm_num⟩
  show round4 (1 - 2) = -1
  norm_num [round4, round_eq]

/-- Whether the loop keeps a match is exactly whether its metadata
resolves. -/
theorem buildSearchResult_isSome (getMeta : String → Option DocumentMetadata)
    (vr : VectorSearchResult) :
    (buildSearchResult getMeta vr).isSome = (getMeta vr.document_id).isSome := by
  unfold buildSearchResult
  cases getMeta vr.document_id <;> rfl

/-- C10: matches whose `document_id` resolves to no metadata record are
silently dropped: when embedding generation and the vector search succeed,
the response reports `success: true` and `result_count` equal to the number
of matches with resolvable metadata, which is at most the number of matches
the store returned. -/
theorem search_drops_unresolved_matches
    (query : String) (limit : Nat)
    (genEmbedding : String → Except String (List ℚ))
    (dbSearch : List ℚ → Nat → Except String (List VectorSearchResult))
    (getMeta : String → Option DocumentMetadata)
    (qe : List ℚ) (vrs : List VectorSearchResult)
    (hq : pyStrip query ≠ "")
    (hg : genEmbedding (pyStrip query) = .ok qe) (hqe : qe ≠ [])
    (hs : dbSearch qe limit = .ok vrs) :
    (searchDocumentsService query limit genEmbedding dbSearch getMeta).success = true ∧
    (searchDocumentsService query limit genEmbedding dbSearch getMeta).result_count =
      some ((vrs.filter (fun vr => (getMeta vr.document_id).isSome)).length) ∧
    (vrs.filter (fun vr => (getMeta vr.document_id).isSome)).length ≤ vrs.length := by
  have hcount :
      (buildSearchResults getMeta vrs).length =
        (vrs.filter (fun vr => (getMeta vr.document_id).isSome)).length := by
    unfold buildSearchResults
    rw [length_filterMap_eq_length_filter]
    congr 1
    apply List.filter_congr
    intro vr _
    rw [buildSearchResult_isSome]
  unfold searchDocumentsService
  rw [if_neg hq, hg]
  simp only [if_neg hqe, hs]
  refine ⟨by simp, ?_, List.length_filter_le _ _⟩
  simp only [List.length_map, hcount]

/-- Lookup table resolving only `"doc1"`, used at concrete inputs. -/
def getMetaSample : String → Option DocumentMetadata :=
  fun i => if i = "doc1" then some sampleMeta else none

/-- A concrete match whose document has no metadata record. -/
def vrMiss : VectorSearchResult := { document_id := "ghost", content := "c2", score := 0 }

theorem search_drops_unresolved_matches_witness :
    (searchDocumentsService "q" 10 (fun _ => .ok [1])
      (fun _ _ => .ok [vrHit, vrMiss]) getMetaSample).success = true ∧
    (searchDocumentsService "q" 10 (fun _ => .ok [1])
      (fun _ _ => .ok [vrHit, vrMiss]) getMetaSample).result_count =
      some (([vrHit, vrMiss].filter
        (fun vr => (getMetaSample vr.document_id).isSome)).length) ∧
    ([vrHit, vrMiss].filter
      (fun vr => (getMetaSample vr.document_id).isSome)).length ≤
      [vrHit, vrMiss].length :=
  search_drops_unresolved_matches "q" 10 (fun _ => .ok [1])
    (fun _ _ => .ok [vrHit, vrMiss]) getMetaSample [1] [vrHit, vrMiss]
    (by decide) rfl (by decide) rfl

/-! Listing and clearing. -/

/-- Modelled from the spec: `LanceDBManager.list_all_documents`
(storage/lancedb_manager.py is not among the sources).  Documents come back
in the stable ingestion order; `offset` skips that many records, `limit`
caps the count returned, `limit = none` means unbounded. -/
def listAllDocuments (s : StoreState) (limit : Option Nat) (offset : Nat) :
    List DocumentMetadata :=
  match limit with
  | none => s.documents.drop offset
  | some l => (s.documents.drop offset).take l

/-- Modelled from the spec: `LanceDBManager.get_document_count` — the total
number of documents currently stored. -/
def getDocumentCount (s : StoreState) : Nat := s.documents.length

/-- Modelled from the spec: `LanceDBManager.clear_all_documents` — deletes
every document and chunk record and returns the count of documents
removed. -/
def clearAllDocuments (s : StoreState) : Nat × StoreState :=
  (s.documents.length, { documents := [], chunks := [] })

/-- Serialized document entry (models the dict appended to `document_list`
in `DocumentService.list_documents`, field for field). -/
structure DocumentDict where
  id : String
  file_path : String
  file_name : String
  file_size : Nat
  file_type : String
  ingestion_timestamp : Option Nat
  content_hash : String
  chunk_count : Nat
deriving Repr, DecidableEq

/-- The per-document serialization in `DocumentService.list_documents`
(also the shape of the `document` payload of `add_document`). -/
def serializeDocument (d : DocumentMetadata) : DocumentDict :=
  { id := d.id
    file_path := d.file_path
    file_name := d.file_name
    file_size := d.file_size
    file_type := d.file_type
    ingestion_timestamp := d.ingestion_timestamp
    content_hash := d.content_hash
    chunk_count := d.chunk_count }

/-- The `pagination` sub-dict of the `list_documents` response. -/
structure Pagination where
  total_count : Nat
  returned_count : Nat
  offset : Nat
  limit : Option Nat
deriving Repr, DecidableEq

/-- Python `str(...)` of an optional integer argument, as it appears inside
error details. -/
def pyOptStr : Option Nat → String
  | none => "None"
  | some n => toString n

/-- Response dict of `DocumentService.list_documents`. -/
structure ListResponse where
  success : Bool
  documents : Option (List DocumentDict) := none
  pagination : Option Pagination := none
  message : Option String := none
  error_type : Option String := none
  error_message : Option String := none
  error_details : Option (List (String × String)) := none
deriving Repr, DecidableEq

/-- `DocumentService.list_documents`.  `dbList` models
`db_manager.list_all_documents` and `dbCount` models
`db_manager.get_document_count`; an exception from either is caught and
converted to the `document_listing_error` envelope. -/
def listDocumentsService (limit : Option Nat) (offset : Nat)
    (dbList : Option Nat → Nat → Except String (List DocumentMetadata))
    (dbCount : Except String Nat) : ListResponse :=
  match dbList limit offset with
  | .error e =>
      { success := false
        error_type := some "document_listing_error"
        error_message := some ("Failed to list documents: " ++ e)
        error_details := some
          [("limit", pyOptStr limit), ("offset", toString offset), ("error", e)] }
  | .ok docs =>
      match dbCount with
      | .error e =>
          { success := false
            error_type := some "document_listing_error"
            error_message := some ("Failed to list documents: " ++ e)
            error_details := some
              [("limit", pyOptStr limit), ("offset", toString offset), ("error", e)] }
      | .ok totalCount =>
          let documentList := docs.map serializeDocument
          { success := true
            documents := some documentList
            pagination := some
              { total_count := totalCount
                returned_count := documentList.length
                offset := offset
                limit := limit }
            message := some ("Found " ++ toString documentList.length ++ " documents" ++
              (if documentList.length < totalCount then
                " (showing " ++ toString (offset + 1) ++ "-" ++
                  toString (offset + documentList.length) ++ " of " ++
                  toString totalCount ++ ")"
              else "")) }

/-- C5: against the store model, `list_documents(limit=L, offset=O)`
returns exactly the slice `documents[O:O+L]` of the full ingestion-ordered
document list, and the pagination envelope carries `returned_count` equal
to the number of documents returned (which is at most `L`), together with
`total_count`, `offset` and `limit`. -/
theorem list_documents_pagination (s : StoreState) (L O : Nat) :
    (listDocumentsService (some L) O
        (fun lim off => .ok (listAllDocuments s lim off))
        (.ok (getDocumentCount s))).success = true ∧
    (listDocumentsService (some L) O
        (fun lim off => .ok (listAllDocuments s lim off))
        (.ok (getDocumentCount s))).documents =
      some (((s.documents.map serializeDocument).drop O).take L) ∧
    (listDocumentsService (some L) O
        (fun lim off => .ok (listAllDocuments s lim off))
        (.ok (getDocumentCount s))).pagination =
      some { total_count := s.documents.length
             returned_count := ((s.documents.drop O).take L).length
             offset := O
             limit := some L } ∧
    ((s.documents.drop O).take L).length ≤ L := by
  unfold listDocumentsService listAllDocuments getDocumentCount
  refine ⟨rfl, ?_, ?_, ?_⟩
  · simp [List.map_take, List.map_drop]
  · simp [List.length_map]
  · exact le_trans (List.length_take_le _ _) (le_refl _)

/-- Response dict of `DocumentService.clear_knowledge_base`. -/
structure ClearResponse where
  success : Bool
  documents_removed : Option Nat := none
  message : Option String := none
  error_type : Option String := none
  error_message : Option String := none
  error_details : Option (List (String × String)) := none
deriving Repr, DecidableEq

/-- `DocumentService.clear_knowledge_base`.  `dbClear` models
`db_manager.clear_all_documents`; an exception is caught and converted to
the `knowledge_base_clear_error` envelope. -/
def clearKnowledgeBaseService (dbClear : Except String Nat) : ClearResponse :=
  match dbClear with
  | .error e =>
      { success := false
        error_type := some "knowledge_base_clear_error"
        error_message := some ("Failed to clear knowledge base: " ++ e)
        error_details := some [("error", e)] }
  | .ok documentsRemoved =>
      { success := true
        documents_removed := some documentsRemoved
        message := some ("Successfully cleared " ++ toString documentsRemoved ++
          " documents from the knowledge base") }

/-- C6: starting from a store with at least one document, the first clear
reports a non-zero `documents_removed`, an immediately repeated clear
reports zero, and `get_document_count()` is `0` after the first clear. -/
theorem clear_twice (s : StoreState) (h : s.documents ≠ []) :
    (clearKnowledgeBaseService (.ok (clearAllDocuments s).1)).success = true ∧
    (clearKnowledgeBaseService (.ok (clearAllDocuments s).1)).documents_removed =
      some (clearAllDocuments s).1 ∧
    (clearAllDocuments s).1 ≠ 0 ∧
    (clearKnowledgeBaseService
        (.ok (clearAllDocuments (clearAllDocuments s).2).1)).documents_removed =
      some 0 ∧
    getDocumentCount (clearAllDocuments s).2 = 0 := by
  refine ⟨rfl, rfl, ?_, rfl, rfl⟩
  unfold clearAllDocuments
  have := List.length_pos.mpr h
  omega

theorem clear_twice_witness :
    (clearKnowledgeBaseService (.ok (clearAllDocuments storeOne).1)).success = true ∧
    (clearKnowledgeBaseService (.ok (clearAllDocuments storeOne).1)).documents_removed =
      some (clearAllDocuments storeOne).1 ∧
    (clearAllDocuments storeOne).1 ≠ 0 ∧
    (clearKnowledgeBaseService
        (.ok (clearAllDocuments (clearAllDocuments storeOne).2).1)).documents_removed =
      some 0 ∧
    getDocumentCount (clearAllDocuments storeOne).2 = 0 :=
  clear_twice storeOne (by simp [storeOne])

/-! The tool boundary (server.py). -/

/-- A parameter-validation failure raised before any pipeline work. -/
structure ParameterValidationError where
  parameter : String
  message : String
deriving Repr, DecidableEq

/-- Modelled from the spec: `validate_limit_parameter` from the errors
module (errors.py is not among the sources; the range comes from the call
sites `min_value=.., max_value=..` in server.py).  `None` passes; an
integer outside `[minValue, maxValue]` raises a parameter-validation
error. -/
def validateLimit (limit : Option Int) (minValue maxValue : Int) :
    Option ParameterValidationError :=
  match limit with
  | none => none
  | some l =>
      if l < minValue ∨ maxValue < l then
        some { parameter := "limit", message := "limit out of range" }
      else none

/-- Modelled from the spec: `validate_offset_parameter` — an offset below 0
or above `maxValue` raises a parameter-validation error. -/
def validateOffset (offset : Int) (maxValue : Int) :
    Option ParameterValidationError :=
  if offset < 0 ∨ maxValue < offset then
    some { parameter := "offset", message := "offset out of range" }
  else none

/-- Modelled from the spec: `validate_query_parameter` with
`min_length=1, max_length=10000` — a query whose length is outside the
range raises a parameter-validation error. -/
def validateQuery (query : String) (minLength maxLength : Nat) :
    Option ParameterValidationError :=
  if query.length < minLength ∨ maxLength < query.length then
    some { parameter := "query", message := "query length out of range" }
  else none

/-- Modelled from the spec: `validate_file_path` — a blank path raises a
parameter-validation error. -/
def validateFilePath (filePath : String) : Option ParameterValidationError :=
  if pyStrip filePath = "" then
    some { parameter := "file_path", message := "file_path must be a non-empty string" }
  else none

/-- Modelled from the spec: the error triple produced by
`ParameterValidationError.to_dict` — a machine-checkable `error_type`, a
human-readable message, and details. -/
def ParameterValidationError.toTriple (e : ParameterValidationError) :
    String × String × List (String × String) :=
  ("parameter_validation_error", e.message, [("parameter", e.parameter)])

/-- A fault escaping the pipeline into a tool's `except` clauses: either a
typed `KnowledgeBaseError` or an arbitrary unexpected exception. -/
inductive Fault where
  | kb (error_type : String) (message : String) (details : List (String × String))
  | other (message : String)
deriving Repr, DecidableEq

/-- Modelled from the spec: `KnowledgeBaseError.to_dict` /
`create_error_response` — both produce the structured envelope triple; the
catch-all tags unexpected failures with a generic error kind. -/
def Fault.toTriple : Fault → String × String × List (String × String)
  | .kb t m d => (t, m, d)
  | .other m => ("unexpected_error", m, [])

/-- Error envelope shaped as a `list_documents` response. -/
def ListResponse.ofTriple (t : String × String × List (String × String)) :
    ListResponse :=
  { success := false
    error_type := some t.1
    error_message := some t.2.1
    error_details := some t.2.2 }

/-- Error envelope shaped as a `search_documents` response. -/
def SearchResponse.ofTriple (t : String × String × List (String × String)) :
    SearchResponse :=
  { success := false
    error_type := some t.1
    error_message := some t.2.1
    error_details := some t.2.2 }

/-- Error envelope shaped as a `clear_knowledge_base` response. -/
def ClearResponse.ofTriple (t : String × String × List (String × String)) :
    ClearResponse :=
  { success := false
    error_type := some t.1
    error_message := some t.2.1
    error_details := some t.2.2 }

/-- Outcome of the validation prologue of the `list_documents` tool:
either a rejection (the pipeline, and hence the store, is never invoked)
or an invocation of the pipeline with the converted arguments. -/
inductive ListToolCall where
  | rejected (e : ParameterValidationError)
  | invoked (limit : Option Int) (offset : Int)
deriving Repr, DecidableEq

/-- The validation prologue of the `list_documents` tool (server.py):
`if limit == 0: limit = None`, then
`validate_limit_parameter(limit, min_value=1, max_value=1000)` and
`validate_offset_parameter(offset, max_value=100000)`. -/
def listDocumentsToolValidate (limit : Option Int) (offset : Int) : ListToolCall :=
  let limit := if limit = some 0 then none else limit
  match validateLimit limit 1 1000 with
  | some e => .rejected e
  | none =>
      match validateOffset offset 100000 with
      | some e => .rejected e
      | none => .invoked limit offset

/-- The `list_documents` tool: validation first; a
`ParameterValidationError` is returned as its envelope without invoking the
pipeline; a fault from service initialization or escaping the service is
caught and converted; otherwise the pipeline result is passed through.
After validation the limit is in `1..1000` and the offset in `0..100000`,
so the conversion to `Nat` arguments is loss-free. -/
def listDocumentsTool (limit : Option Int) (offset : Int)
    (initOutcome : Except Fault Unit)
    (service : Option Nat → Nat → ListResponse) : ListResponse :=
  match listDocumentsToolValidate limit offset with
  | .rejected e => ListResponse.ofTriple e.toTriple
  | .invoked lim off =>
      match initOutcome with
      | .error f => ListResponse.ofTriple f.toTriple
      | .ok _ => service (lim.map Int.toNat) off.toNat

/-- C9: the `list_documents` tool converts `limit = 0` to `None` before
validation, so it is accepted as "no limit"; any other limit outside
`1..1000`, or an offset outside `0..100000`, is rejected with a
parameter-validation error envelope, and on any rejection the pipeline
(and hence the store) is never invoked: the tool's result does not depend
on the service at all. -/
theorem list_documents_limit_validation :
    (∀ off : Int, 0 ≤ off → off ≤ 100000 →
        listDocumentsToolValidate (some 0) off = .invoked none off) ∧
    (∀ (l off : Int), l ≠ 0 → (l < 1 ∨ 1000 < l) →
        listDocumentsToolValidate (some l) off =
          .rejected { parameter := "limit", message := "limit out of range" }) ∧
    (∀ (lim : Option Int) (off : Int), (off < 0 ∨ 100000 < off) →
        ∀ (l' : Option Int) (o' : Int),
          listDocumentsToolValidate lim off ≠ .invoked l' o') ∧
    (∀ (lim : Option Int) (off : Int) (e : ParameterValidationError)
        (initOutcome : Except Fault Unit),
        listDocumentsToolValidate lim off = .rejected e →
        ∀ service₁ service₂,
          listDocumentsTool lim off initOutcome service₁ =
            listDocumentsTool lim off initOutcome service₂ ∧
          (listDocumentsTool lim off initOutcome service₁).success = false ∧
          (listDocumentsTool lim off initOutcome service₁).error_type =
            some "parameter_validation_error") := by
  refine ⟨?_, ?_, ?_, ?_⟩
  · intro off h0 h1
    unfold listDocumentsToolValidate validateLimit validateOffset
    simp [if_neg (by omega : ¬(off < 0 ∨ 100000 < off))]
  · intro l off hne hout
    unfold listDocumentsToolValidate validateLimit
    simp only [if_neg (by simpa using hne : ¬(some l = some 0))]
    simp [if_pos hout]
  · intro lim off hoff l' o'
    unfold listDocumentsToolValidate validateLimit validateOffset
    rcases hl : if lim = some 0 then none else lim with _ | l
    · simp [hl, if_pos hoff]
    · by_cases hr : l < 1 ∨ 1000 < l
      · simp [hl, if_pos hr]
      · simp [hl, if_neg hr, if_pos hoff]
  · intro lim off e initOutcome hrej service₁ service₂
    unfold listDocumentsTool
    rw [hrej]
    exact ⟨rfl, rfl, rfl⟩

theorem list_documents_limit_validation_witness :
    listDocumentsToolValidate (some 0) 5 = .invoked none 5 ∧
    listDocumentsToolValidate (some 2000) 0 =
      .rejected { parameter := "limit", message := "limit out of range" } ∧
    listDocumentsToolValidate (some 5) (-1) ≠ .invoked (some 5) (-1) ∧
    (listDocumentsTool (some 2000) 0 (.ok ())
        (fun _ _ => { success := true })).success = false :=
  ⟨list_documents_limit_validation.1 5 (by decide) (by decide),
   list_documents_limit_validation.2.1 2000 0 (by decide) (by decide),
   list_documents_limit_validation.2.2.1 (some 5) (-1) (by decide) (some 5) (-1),
   ((list_documents_limit_validation.2.2.2 (some 2000) 0
        { parameter := "limit", message := "limit out of range" } (.ok ())
        (list_documents_limit_validation.2.1 2000 0 (by decide) (by decide))
        (fun _ _ => { success := true })
        (fun _ _ => { success := true })).2.1)⟩

/-! Ingestion (`add_document`) and the remaining tools. -/

/-- A `FileProcessingError` raised by the content extractor, carrying its
own error kind and details. -/
structure FileProcessingError where
  error_type : String
  message : String
  details : List (String × String)
deriving Repr, DecidableEq

/-- A document chunk as produced by the extractor (models `DocumentChunk`);
the embedding is absent until assigned during ingestion. -/
structure DocumentChunk where
  id : String
  document_id : String
  chunk_index : Nat
  content : String
  embedding : Option (List ℚ)
deriving Repr, DecidableEq

/-- The `for chunk, embedding in zip(chunks, embeddings)` assignment loop
of `DocumentService.add_document`. -/
def assignEmbeddings (chunks : List DocumentChunk)
    (embeddings : List (List ℚ)) : List DocumentChunk :=
  chunks.zipWith (fun c e => { c with embedding := some e }) embeddings

/-- Response dict of `DocumentService.add_document`. -/
structure AddResponse where
  success : Bool
  document : Option DocumentDict := none
  message : Option String := none
  error_type : Option String := none
  error_message : Option String := none
  error_details : Option (List (String × String)) := none
deriving Repr, DecidableEq

/-- The `document_ingestion_error` envelope built by the catch-all of
`DocumentService.add_document`. -/
def ingestionErrorResponse (filePath message : String) : AddResponse :=
  { success := false
    error_type := some "document_ingestion_error"
    error_message := some ("Failed to add document: " ++ message)
    error_details := some [("file_path", filePath), ("error", message)] }

/-- `DocumentService.add_document`.  `extract` models
`content_extractor.extract_and_chunk(file_path)` (a `FileProcessingError`
gets its own envelope); `genEmbeddings` models
`embedding_service.generate_embeddings`, called only when chunks exist;
`storeWrite` models `db_manager.add_document_vectors` applied to the
metadata and the embedded chunks.  Any exception from the latter two is
caught by the surrounding `except` and converted to the
`document_ingestion_error` envelope. -/
def addDocumentService (filePath : String)
    (extract : Except FileProcessingError (DocumentMetadata × List DocumentChunk))
    (genEmbeddings : List String → Except String (List (List ℚ)))
    (storeWrite : DocumentMetadata → List DocumentChunk → Except String Unit) :
    AddResponse :=
  match extract with
  | .error e =>
      { success := false
        error_type := some e.error_type
        error_message := some e.message
        error_details := some e.details }
  | .ok (metadata, chunks) =>
      match (if chunks.isEmpty then Except.ok chunks
          else (genEmbeddings (chunks.map DocumentChunk.content)).map
            (assignEmbeddings chunks) : Except String (List DocumentChunk)) with
      | .error e => ingestionErrorResponse filePath e
      | .ok embeddedChunks =>
          match storeWrite metadata embeddedChunks with
          | .error e => ingestionErrorResponse filePath e
          | .ok _ =>
              { success := true
                document := some (serializeDocument metadata)
                message := some ("Document '" ++ metadata.file_name ++
                  "' added successfully with " ++ toString chunks.length ++ " chunks") }

/-- Error envelope shaped as an `add_document` response. -/
def AddResponse.ofTriple (t : String × String × List (String × String)) :
    AddResponse :=
  { success := false
    error_type := some t.1
    error_message := some t.2.1
    error_details := some t.2.2 }

/-- The `add_document` tool (server.py): `validate_file_path`, then
`file_path.strip()`, then the service; `ParameterValidationError`,
`KnowledgeBaseError` and unexpected exceptions are each converted to the
structured envelope. -/
def addDocumentTool (filePath : String)
    (initOutcome : Except Fault Unit)
    (service : String → AddResponse) : AddResponse :=
  match validateFilePath filePath with
  | some e => AddResponse.ofTriple e.toTriple
  | none =>
      match initOutcome with
      | .error f => AddResponse.ofTriple f.toTriple
      | .ok _ => service (pyStrip filePath)

/-- The `search_documents` tool (server.py):
`validate_query_parameter(query, min_length=1, max_length=10000)`,
`validate_limit_parameter(limit, min_value=1, max_value=100)`, then
`query.strip()` and the service; each failure kind is converted to the
structured envelope.  After validation the limit is in `1..100`, so the
`Nat` conversion is loss-free. -/
def searchDocumentsTool (query : String) (limit : Int)
    (initOutcome : Except Fault Unit)
    (service : String → Nat → SearchResponse) : SearchResponse :=
  match validateQuery query 1 10000 with
  | some e => SearchResponse.ofTriple e.toTriple
  | none =>
      match validateLimit (some limit) 1 100 with
      | some e => SearchResponse.ofTriple e.toTriple
      | none =>
          match initOutcome with
          | .error f => SearchResponse.ofTriple f.toTriple
          | .ok _ => service (pyStrip query) limit.toNat

/-- The `clear_knowledge_base` tool (server.py): no parameters to validate;
`KnowledgeBaseError` and unexpected exceptions are converted to the
structured envelope. -/
def clearKnowledgeBaseTool (initOutcome : Except Fault Unit)
    (service : ClearResponse) : ClearResponse :=
  match initOutcome with
  | .error f => ClearResponse.ofTriple f.toTriple
  | .ok _ => service

/-- C1: across all four tool operations, every outcome crossing the tool
boundary is a total, structured envelope: either `success: true` with the
operation's payload and no error fields, or `success: false` carrying the
full `error_type`/`error_message`/`error_details` triple and no payload
(no raw fault crosses the boundary — the embedded tools are total
functions of their collaborators' outcomes, exceptions being modelled as
`.error` values that the `except` clauses convert).  Moreover each failure
source — parameter validation, service initialization, file processing,
embedding generation, storage — lands in the `success: false` branch with
its error kind. -/
theorem tool_boundary_structured_envelopes :
    (∀ (filePath : String) (initOutcome : Except Fault Unit)
        (extract : Except FileProcessingError (DocumentMetadata × List DocumentChunk))
        (genEmbeddings : List String → Except String (List (List ℚ)))
        (storeWrite : DocumentMetadata → List DocumentChunk → Except String Unit),
        (fun r : AddResponse =>
          (r.success = true ∧ r.document.isSome ∧ r.error_type = none ∧
            r.error_message = none ∧ r.error_details = none) ∨
          (r.success = false ∧ r.error_type.isSome ∧ r.error_message.isSome ∧
            r.error_details.isSome ∧ r.document = none))
          (addDocumentTool filePath initOutcome
            (fun p => addDocumentService p extract genEmbeddings storeWrite))) ∧
    (∀ (limit : Option Int) (offset : Int) (initOutcome : Except Fault Unit)
        (dbList : Option Nat → Nat → Except String (List DocumentMetadata))
        (dbCount : Except String Nat),
        (fun r : ListResponse =>
          (r.success = true ∧ r.documents.isSome ∧ r.pagination.isSome ∧
            r.error_type = none ∧ r.error_message = none ∧ r.error_details = none) ∨
          (r.success = false ∧ r.error_type.isSome ∧ r.error_message.isSome ∧
            r.error_details.isSome ∧ r.documents = none))
          (listDocumentsTool limit offset initOutcome
            (fun l o => listDocumentsService l o dbList dbCount))) ∧
    (∀ (query : String) (limit : Int) (initOutcome : Except Fault Unit)
        (genEmbedding : String → Except String (List ℚ))
        (dbSearch : List ℚ → Nat → Except String (List VectorSearchResult))
        (getMeta : String → Option DocumentMetadata),
        (fun r : SearchResponse =>
          (r.success = true ∧ r.results.isSome ∧ r.result_count.isSome ∧
            r.error_type = none ∧ r.error_message = none ∧ r.error_details = none) ∨
          (r.success = false ∧ r.error_type.isSome ∧ r.error_message.isSome ∧
            r.error_details.isSome ∧ r.results = none))
          (searchDocumentsTool query limit initOutcome
            (fun q l => searchDocumentsService q l genEmbedding dbSearch getMeta))) ∧
    (∀ (initOutcome : Except Fault Unit) (dbClear : Except String Nat),
        (fun r : ClearResponse =>
          (r.success = true ∧ r.documents_removed.isSome ∧ r.error_type = none ∧
            r.error_message = none ∧ r.error_details = none) ∨
          (r.success = false ∧ r.error_type.isSome ∧ r.error_message.isSome ∧
            r.error_details.isSome ∧ r.documents_removed = none))
          (clearKnowledgeBaseTool initOutcome (clearKnowledgeBaseService dbClear))) ∧
    (∀ (filePath : String) (initOutcome : Except Fault Unit)
        (service : String → AddResponse) (e : ParameterValidationError),
        validateFilePath filePath = some e →
        (addDocumentTool filePath initOutcome service).success = false ∧
        (addDocumentTool filePath initOutcome service).error_type =
          some "parameter_validation_error") ∧
    (∀ (filePath : String) (f : Fault) (service : String → AddResponse),
        validateFilePath filePath = none →
        (addDocumentTool filePath (.error f) service).success = false) ∧
    (∀ (filePath : String)
        (e : FileProcessingError)
        (genEmbeddings : List String → Except String (List (List ℚ)))
        (storeWrite : DocumentMetadata → List DocumentChunk → Except String Unit),
        (addDocumentService filePath (.error e) genEmbeddings storeWrite).success = false ∧
        (addDocumentService filePath (.error e) genEmbeddings storeWrite).error_type =
          some e.error_type) ∧
    (∀ (filePath : String) (m : DocumentMetadata) (c : List DocumentChunk)
        (genEmbeddings : List String → Except String (List (List ℚ)))
        (storeWrite : DocumentMetadata → List DocumentChunk → Except String Unit)
        (msg : String),
        ¬ c.isEmpty = true →
        genEmbeddings (c.map DocumentChunk.content) = .error msg →
        (addDocumentService filePath (.ok (m, c)) genEmbeddings storeWrite).success = false ∧
        (addDocumentService filePath (.ok (m, c)) genEmbeddings storeWrite).error_type =
          some "document_ingestion_error") ∧
    (∀ (filePath : String) (m : DocumentMetadata) (c ec : List DocumentChunk)
        (genEmbeddings : List String → Except String (List (List ℚ)))
        (storeWrite : DocumentMetadata → List DocumentChunk → Except String Unit)
        (msg : String),
        (if c.isEmpty then Except.ok c
          else (genEmbeddings (c.map DocumentChunk.content)).map
            (assignEmbeddings c)) = .ok ec →
        storeWrite m ec = .error msg →
        (addDocumentService filePath (.ok (m, c)) genEmbeddings storeWrite).success = false ∧
        (addDocumentService filePath (.ok (m, c)) genEmbeddings storeWrite).error_type =
          some "document_ingestion_error") ∧
    (∀ (query : String) (limit : Nat)
        (genEmbedding : String → Except String (List ℚ))
        (dbSearch : List ℚ → Nat → Except String (List VectorSearchResult))
        (getMeta : String → Option DocumentMetadata),
        pyStrip query = "" →
        (searchDocumentsService query limit genEmbedding dbSearch getMeta).success = false ∧
        (searchDocumentsService query limit genEmbedding dbSearch getMeta).error_type =
          some "invalid_query") ∧
    (∀ (query : String) (limit : Nat)
        (genEmbedding : String → Except String (List ℚ))
        (dbSearch : List ℚ → Nat → Except String (List VectorSearchResult))
        (getMeta : String → Option DocumentMetadata) (msg : String),
        pyStrip query ≠ "" →
        genEmbedding (pyStrip query) = .error msg →
        (searchDocumentsService query limit genEmbedding dbSearch getMeta).success = false ∧
        (searchDocumentsService query limit genEmbedding dbSearch getMeta).error_type =
          some "document_search_error") ∧
    (∀ (query : String) (limit : Nat)
        (genEmbedding : String → Except String (List ℚ))
        (dbSearch : List ℚ → Nat → Except String (List VectorSearchResult))
        (getMeta : String → Option DocumentMetadata),
        pyStrip query ≠ "" →
        genEmbedding (pyStrip query) = .ok [] →
        (searchDocumentsService query limit genEmbedding dbSearch getMeta).success = false ∧
        (searchDocumentsService query limit genEmbedding dbSearch getMeta).error_type =
          some "embedding_generation_error") ∧
    (∀ (query : String) (limit : Nat)
        (genEmbedding : String → Except String (List ℚ))
        (dbSearch : List ℚ → Nat → Except String (List VectorSearchResult))
        (getMeta : String → Option DocumentMetadata) (qe : List ℚ) (msg : String),
        pyStrip query ≠ "" →
        genEmbedding (pyStrip query) = .ok qe → qe ≠ [] →
        dbSearch qe limit = .error msg →
        (searchDocumentsService query limit genEmbedding dbSearch getMeta).success = false ∧
        (searchDocumentsService query limit genEmbedding dbSearch getMeta).error_type =
          some "document_search_error") ∧
    (∀ (limit : Option Nat) (offset : Nat)
        (dbList : Option Nat → Nat → Except String (List DocumentMetadata))
        (dbCount : Except String Nat) (msg : String),
        dbList limit offset = .error msg →
        (listDocumentsService limit offset dbList dbCount).success = false ∧
        (listDocumentsService limit offset dbList dbCount).error_type =
          some "document_listing_error") ∧
    (∀ (msg : String),
        (clearKnowledgeBaseService (.error msg)).success = false ∧
        (clearKnowledgeBaseService (.error msg)).error_type =
          some "knowledge_base_clear_error") := by
  refine ⟨?_, ?_, ?_, ?_, ?_, ?_, ?_, ?_, ?_, ?_, ?_, ?_, ?_, ?_, ?_⟩
  · intro filePath initOutcome extract genEmbeddings storeWrite
    unfold addDocumentTool
    cases validateFilePath filePath with
    | some e => right; refine ⟨?_, ?_, ?_, ?_, ?_⟩ <;> trivial
    | none =>
        cases initOutcome with
        | error f => right; refine ⟨?_, ?_, ?_, ?_, ?_⟩ <;> trivial
        | ok _ =>
            dsimp only
            unfold addDocumentService
            cases extract with
            | error e => right; refine ⟨?_, ?_, ?_, ?_, ?_⟩ <;> trivial
            | ok mc =>
                obtain ⟨m, c⟩ := mc
                dsimp only
                cases hemb : (if c.isEmpty then Except.ok c
                    else (genEmbeddings (c.map DocumentChunk.content)).map
                      (assignEmbeddings c)) with
                | error e => right; refine ⟨?_, ?_, ?_, ?_, ?_⟩ <;> trivial
                | ok ec =>
                    dsimp only
                    cases storeWrite m ec with
                    | error e => right; refine ⟨?_, ?_, ?_, ?_, ?_⟩ <;> trivial
                    | ok _ => left; refine ⟨?_, ?_, ?_, ?_, ?_⟩ <;> trivial
  · intro limit offset initOutcome dbList dbCount
    unfold listDocumentsTool
    cases listDocumentsToolValidate limit offset with
    | rejected e => right; refine ⟨?_, ?_, ?_, ?_, ?_⟩ <;> trivial
    | invoked lim off =>
        cases initOutcome with
        | error f => right; refine ⟨?_, ?_, ?_, ?_, ?_⟩ <;> trivial
        | ok _ =>
            dsimp only
            unfold listDocumentsService
            cases dbList (lim.map Int.toNat) off.toNat with
            | error e => right; refine ⟨?_, ?_, ?_, ?_, ?_⟩ <;> trivial
            | ok docs =>
                cases dbCount with
                | error e => right; refine ⟨?_, ?_, ?_, ?_, ?_⟩ <;> trivial
                | ok n => left; refine ⟨?_, ?_, ?_, ?_, ?_, ?_⟩ <;> trivial
  · intro query limit initOutcome genEmbedding dbSearch getMeta
    unfold searchDocumentsTool
    cases validateQuery query 1 10000 with
    | some e => right; refine ⟨?_, ?_, ?_, ?_, ?_⟩ <;> trivial
    | none =>
        cases validateLimit (some limit) 1 100 with
        | some e => right; refine ⟨?_, ?_, ?_, ?_, ?_⟩ <;> trivial
        | none =>
            cases initOutcome with
            | error f => right; refine ⟨?_, ?_, ?_, ?_, ?_⟩ <;> trivial
            | ok _ =>
                dsimp only
                unfold searchDocumentsService
                by_cases hq : pyStrip (pyStrip query) = ""
                · rw [if_pos hq]; right; refine ⟨?_, ?_, ?_, ?_, ?_⟩ <;> trivial
                · rw [if_neg hq]
                  cases genEmbedding (pyStrip (pyStrip query)) with
                  | error e => right; refine ⟨?_, ?_, ?_, ?_, ?_⟩ <;> trivial
                  | ok qe =>
                      by_cases hqe : qe = []
                      · simp only [if_pos hqe]
                        right; refine ⟨?_, ?_, ?_, ?_, ?_⟩ <;> trivial
                      · simp only [if_neg hqe]
                        cases dbSearch qe limit.toNat with
                        | error e => right; refine ⟨?_, ?_, ?_, ?_, ?_⟩ <;> trivial
                        | ok vrs => left; refine ⟨?_, ?_, ?_, ?_, ?_, ?_⟩ <;> trivial
  · intro initOutcome dbClear
    unfold clearKnowledgeBaseTool
    cases initOutcome with
    | error f => right; refine ⟨?_, ?_, ?_, ?_, ?_⟩ <;> trivial
    | ok _ =>
        unfold clearKnowledgeBaseService
        cases dbClear with
        | error e => right; refine ⟨?_, ?_, ?_, ?_, ?_⟩ <;> trivial
        | ok n => left; refine ⟨?_, ?_, ?_, ?_, ?_⟩ <;> trivial
  · intro filePath initOutcome service e h
    unfold addDocumentTool
    rw [h]
    exact ⟨rfl, rfl⟩
  · intro filePath f service h
    unfold addDocumentTool
    rw [h]
    cases f <;> exact rfl
  · intro filePath e genEmbeddings storeWrite
    exact ⟨rfl, rfl⟩
  · intro filePath m c genEmbeddings storeWrite msg hc hg
    unfold addDocumentService
    simp only [if_neg hc, hg]
    refine ⟨?_, ?_⟩ <;> trivial
  · intro filePath m c ec genEmbeddings storeWrite msg hemb hw
    unfold addDocumentService
    simp only [hemb, hw]
    refine ⟨?_, ?_⟩ <;> trivial
  · intro query limit genEmbedding dbSearch getMeta hq
    unfold searchDocumentsService
    rw [if_pos hq]
    exact ⟨rfl, rfl⟩
  · intro query limit genEmbedding dbSearch getMeta msg hq hg
    unfold searchDocumentsService
    rw [if_neg hq, hg]
    exact ⟨rfl, rfl⟩
  · intro query limit genEmbedding dbSearch getMeta hq hg
    unfold searchDocumentsService
    rw [if_neg hq, hg]
    exact ⟨rfl, rfl⟩
  · intro query limit genEmbedding dbSearch getMeta qe msg hq hg hqe hs
    unfold searchDocumentsService
    rw [if_neg hq, hg]
    simp only [if_neg hqe, hs]
    refine ⟨?_, ?_⟩ <;> trivial
  · intro limit offset dbList dbCount msg h
    unfold listDocumentsService
    rw [h]
    exact ⟨rfl, rfl⟩
  · intro msg
    exact ⟨rfl, rfl⟩

theorem tool_boundary_structured_envelopes_witness :
    ((clearKnowledgeBaseService (.error "storage exploded")).success = false ∧
      (clearKnowledgeBaseService (.error "storage exploded")).error_type =
        some "knowledge_base_clear_error") ∧
    ((addDocumentTool "   " (.ok ()) (fun _ => { success := true })).success = false ∧
      (addDocumentTool "   " (.ok ()) (fun _ => { success := true })).error_type =
        some "parameter_validation_error") :=
  ⟨tool_boundary_structured_envelopes.2.2.2.2.2.2.2.2.2.2.2.2.2.2 "storage exploded",
   tool_boundary_structured_envelopes.2.2.2.2.1 "   " (.ok ())
     (fun _ => { success := true })
     { parameter := "file_path", message := "file_path must be a non-empty string" }
     (by decide)⟩

/-! The sliding-window chunker. -/

/-- Modelled from the spec: the plain-text sliding-window chunker of the
`ContentExtractor` (processors/content_extractor.py is not among the
sources).  The text is split into windows of target length `size`; each
subsequent window starts `size - overlap` characters after its
predecessor, so `overlap` characters are repeated at the start of each
subsequent window; the final chunk may be shorter than `size`.  The
recursion is bounded by `fuel`, instantiated with the text length, which
suffices whenever `overlap < size` (each step consumes at least one
character). -/
def chunkLoop (size overlap : Nat) : Nat → List Char → List (List Char)
  | _, [] => []
  | 0, _ => []
  | fuel + 1, text =>
      if text.length ≤ size then [text]
      else text.take size :: chunkLoop size overlap fuel (text.drop (size - overlap))

/-- The chunker applied with enough fuel for the whole text. -/
def slidingWindowChunks (size overlap : Nat) (text : List Char) :
    List (List Char) :=
  chunkLoop size overlap text.length text

theorem chunkLoop_succ_cons (size overlap fuel : Nat) (c : Char) (cs : List Char) :
    chunkLoop size overlap (fuel + 1) (c :: cs) =
      if (c :: cs).length ≤ size then [c :: cs]
      else (c :: cs).take size ::
        chunkLoop size overlap fuel ((c :: cs).drop (size - overlap)) := rfl

/-- The first chunk starts where the text starts: its first `overlap`
characters are the text's first `overlap` characters. -/
theorem chunkLoop_head_take (size overlap : Nat) (hos : overlap ≤ size) :
    ∀ (fuel : Nat) (text : List Char),
      0 < (chunkLoop size overlap fuel text).length →
      ((chunkLoop size overlap fuel text).getD 0 []).take overlap =
        text.take overlap := by
  intro fuel text h0
  match fuel, text with
  | _, [] => simp [chunkLoop] at h0
  | 0, c :: cs => simp [chunkLoop] at h0
  | fuel + 1, c :: cs =>
      rw [chunkLoop_succ_cons]
      by_cases hle : (c :: cs).length ≤ size
      · simp only [if_pos hle, List.getD_cons_zero]
      · simp only [if_neg hle, List.getD_cons_zero]
        rw [List.take_take, Nat.min_eq_left hos]

/-- Overlap and full-length invariants of the fuel-bounded loop. -/
theorem chunkLoop_spec (size overlap : Nat) (hos : overlap < size) :
    ∀ (fuel : Nat) (text : List Char), text.length ≤ fuel →
    ∀ (i : Nat), i + 1 < (chunkLoop size overlap fuel text).length →
      ((chunkLoop size overlap fuel text).getD i []).length = size ∧
      ((chunkLoop size overlap fuel text).getD i []).drop
          (((chunkLoop size overlap fuel text).getD i []).length - overlap) =
        ((chunkLoop size overlap fuel text).getD (i + 1) []).take overlap := by
  intro fuel
  induction fuel with
  | zero =>
      intro text hlen i hi2
      have htext : text = [] := List.eq_nil_of_length_eq_zero (Nat.le_zero.mp hlen)
      subst htext
      simp [chunkLoop] at hi2
  | succ fuel ih =>
      intro text hlen i hi2
      match text with
      | [] => simp [chunkLoop] at hi2
      | c :: cs =>
          by_cases hle : (c :: cs).length ≤ size
          · rw [chunkLoop_succ_cons, if_pos hle] at hi2
            simp at hi2
          · have hsz : size < (c :: cs).length := Nat.lt_of_not_le hle
            have hdroplen :
                ((c :: cs).drop (size - overlap)).length ≤ fuel := by
              simp only [List.length_drop]
              have h1 : 1 ≤ size - overlap := by omega
              have h2 := hlen
              simp only [List.length_cons] at h2 ⊢
              omega
            rw [chunkLoop_succ_cons, if_neg hle] at hi2 ⊢
            cases i with
            | zero =>
                have h0rest :
                    0 < (chunkLoop size overlap fuel
                      ((c :: cs).drop (size - overlap))).length := by
                  rw [List.length_cons] at hi2
                  omega
                have hlt : ((c :: cs).take size).length = size := by
                  rw [List.length_take]
                  exact Nat.min_eq_left (Nat.le_of_lt hsz)
                constructor
                · simpa only [List.getD_cons_zero] using hlt
                · simp only [List.getD_cons_zero, List.getD_cons_succ]
                  rw [hlt,
                    chunkLoop_head_take size overlap (Nat.le_of_lt hos) fuel
                      ((c :: cs).drop (size - overlap)) h0rest,
                    List.drop_take]
                  have hov : size - (size - overlap) = overlap := by omega
                  rw [hov]
            | succ j =>
                have hj2 : j + 1 < (chunkLoop size overlap fuel
                    ((c :: cs).drop (size - overlap))).length := by
                  simp only [List.length_cons] at hi2
                  omega
                simpa only [List.getD_cons_succ] using
                  ih ((c :: cs).drop (size - overlap)) hdroplen j hj2

/-- C7: for a valid configuration with `chunk_overlap = overlap > 0` and
`overlap < size`, any two consecutive chunks `i`, `i+1` produced by the
sliding-window chunker (no structural split intervenes in plain-text
chunking) satisfy: the last `overlap` characters of chunk `i` equal the
first `overlap` characters of chunk `i+1`; and every chunk except possibly
the final one has length exactly `size`, so only the final chunk may be
shorter than `size`. -/
theorem sliding_window_overlap (size overlap : Nat) (text : List Char)
    (ho : 0 < overlap) (hos : overlap < size) (i : Nat)
    (hi2 : i + 1 < (slidingWindowChunks size overlap text).length) :
    ((slidingWindowChunks size overlap text).getD i []).length = size ∧
    ((slidingWindowChunks size overlap text).getD i []).drop
        (((slidingWindowChunks size overlap text).getD i []).length - overlap) =
      ((slidingWindowChunks size overlap text).getD (i + 1) []).take overlap :=
  chunkLoop_spec size overlap hos text.length text (le_refl _) i hi2

theorem sliding_window_overlap_witness :
    0 < 2 ∧
    ((slidingWindowChunks 5 2 ("abcdefgh".toList)).getD 0 []).length = 5 ∧
    ((slidingWindowChunks 5 2 ("abcdefgh".toList)).getD 0 []).drop
        (((slidingWindowChunks 5 2 ("abcdefgh".toList)).getD 0 []).length - 2) =
      ((slidingWindowChunks 5 2 ("abcdefgh".toList)).getD 1 []).take 2 :=
  ⟨by decide,
    sliding_window_overlap 5 2 ("abcdefgh".toList) (by decide) (by decide) 0
      (by decide)⟩

/-! The unguarded lazy initialization of the shared document service. -/

/-- Program counter of one caller of `get_document_service` (server.py).
At `check` the caller runs the `_document_service is None` test; when the
global was `None`, the same synchronous stretch of code also runs
`Config.from_env()`, the `DocumentService(config)` construction and the
assignment to the global — no suspension point separates them, because the
only `await` comes after the assignment.  At `awaitInit` the caller is
suspended inside `await _document_service.initialize()`.  `done` means the
caller has returned. -/
inductive LazyPC where
  | check
  | awaitInit
  | done
deriving Repr, DecidableEq

/-- Shared state of two concurrent first callers of `get_document_service`
under cooperative scheduling: the global `_document_service` (instances
are named by construction order), the number of `DocumentService`
constructions performed (equally, of `initialize()` calls — one per
construction), whether the stored instance has completed `initialize()`,
and per caller: the program counter, the returned instance, and — recorded
at the moment of return — whether initialization had completed by then. -/
structure LazyState where
  shared : Option Nat
  constructCount : Nat
  initDone : Bool
  pc0 : LazyPC
  pc1 : LazyPC
  res0 : Option Nat
  res1 : Option Nat
  sawInited0 : Option Bool
  sawInited1 : Option Bool
deriving Repr, DecidableEq

/-- One atomic step of caller `t` (`false` = caller 0, `true` = caller 1).
At `check` with a non-`None` global the caller returns it at once (the
fast path reaches `return _document_service` with no await), recording
whether the instance had finished initializing; with a `None` global the
caller constructs a fresh instance, assigns the global and only then
suspends at the `await`.  At `awaitInit` the await completes:
initialization is marked done and the caller resumes synchronously to
return the global. -/
def lazyStep (s : LazyState) (t : Bool) : LazyState :=
  match t with
  | false =>
      match s.pc0 with
      | .check =>
          match s.shared with
          | some v =>
              { s with pc0 := .done, res0 := some v
                       sawInited0 := some s.initDone }
          | none =>
              { s with shared := some s.constructCount
                       constructCount := s.constructCount + 1
                       initDone := false
                       pc0 := .awaitInit }
      | .awaitInit =>
          { s with initDone := true, pc0 := .done, res0 := s.shared
                   sawInited0 := some true }
      | .done => s
  | true =>
      match s.pc1 with
      | .check =>
          match s.shared with
          | some v =>
              { s with pc1 := .done, res1 := some v
                       sawInited1 := some s.initDone }
          | none =>
              { s with shared := some s.constructCount
                       constructCount := s.constructCount + 1
                       initDone := false
                       pc1 := .awaitInit }
      | .awaitInit =>
          { s with initDone := true, pc1 := .done, res1 := s.shared
                   sawInited1 := some true }
      | .done => s

/-- Run a schedule (an interleaving of the two callers) from a state. -/
def lazyRun (sched : List Bool) (s : LazyState) : LazyState :=
  sched.foldl lazyStep s

/-- The process-start state: `_document_service is None`, nothing
constructed, both callers about to run their first check. -/
def lazyInit : LazyState :=
  { shared := none
    constructCount := 0
    initDone := false
    pc0 := .check
    pc1 := .check
    res0 := none
    res1 := none
    sawInited0 := none
    sawInited1 := none }

/-- Invariant of the lazy-initialization protocol: because the check and
the assignment form one atomic step, the global only ever holds instance
`0`, at most one construction happens, and every returned instance is
instance `0`. -/
def LazyInv (s : LazyState) : Prop :=
  s.constructCount ≤ 1 ∧
  (s.shared = none ∨ s.shared = some 0) ∧
  (s.shared = none →
    s.constructCount = 0 ∧ s.pc0 = .check ∧ s.pc1 = .check ∧
    s.res0 = none ∧ s.res1 = none) ∧
  (s.pc0 = .awaitInit → s.shared = some 0) ∧
  (s.pc1 = .awaitInit → s.shared = some 0) ∧
  (s.res0 = none ∨ s.res0 = some 0) ∧
  (s.res1 = none ∨ s.res1 = some 0)

theorem lazyStep_inv {s : LazyState} (h : LazyInv s) (t : Bool) :
    LazyInv (lazyStep s t) := by
  obtain ⟨h1, h2, h3, h4, h5, h6, h7⟩ := h
  cases t with
  | false =>
      cases hpc : s.pc0 with
      | check =>
          cases hsh : s.shared with
          | none =>
              obtain ⟨hc0, hp0, hp1, hr0, hr1⟩ := h3 hsh
              have hstep : lazyStep s false =
                  { s with shared := some s.constructCount
                           constructCount := s.constructCount + 1
                           initDone := false
                           pc0 := .awaitInit } := by
                simp [lazyStep, hpc, hsh]
              rw [hstep]
              refine ⟨?_, ?_, ?_, ?_, ?_, ?_, ?_⟩
              case _ =>
                show s.constructCount + 1 ≤ 1
                omega
              · right; rw [hc0]
              · intro hn; simp at hn
              · intro _; rw [hc0]
              · intro hx; rw [hp1] at hx; cases hx
              · left; exact hr0
              · left; exact hr1
          | some v =>
              have hv : v = 0 := by
                rcases h2 with h2 | h2
                · rw [hsh] at h2; cases h2
                · rw [hsh] at h2; exact Option.some.inj h2
              subst hv
              have hstep : lazyStep s false =
                  { s with pc0 := .done, res0 := some 0
                           sawInited0 := some s.initDone } := by
                simp [lazyStep, hpc, hsh]
              rw [hstep]
              refine ⟨h1, h2, ?_, ?_, h5, Or.inr rfl, h7⟩
              · intro hn; rw [hsh] at hn; cases hn
              · intro hx; cases hx
      | awaitInit =>
          have hsh0 : s.shared = some 0 := h4 hpc
          have hstep : lazyStep s false =
              { s with initDone := true, pc0 := .done, res0 := s.shared
                       sawInited0 := some true } := by
            simp [lazyStep, hpc]
          rw [hstep]
          refine ⟨h1, h2, ?_, ?_, h5, Or.inr hsh0, h7⟩
          · intro hn; rw [hsh0] at hn; cases hn
          · intro hx; cases hx
      | done =>
          have hstep : lazyStep s false = s := by simp [lazyStep, hpc]
          rw [hstep]
          exact ⟨h1, h2, h3, h4, h5, h6, h7⟩
  | true =>
      cases hpc : s.pc1 with
      | check =>
          cases hsh : s.shared with
          | none =>
              obtain ⟨hc0, hp0, hp1, hr0, hr1⟩ := h3 hsh
              have hstep : lazyStep s true =
                  { s with shared := some s.constructCount
                           constructCount := s.constructCount + 1
                           initDone := false
                           pc1 := .awaitInit } := by
                simp [lazyStep, hpc, hsh]
              rw [hstep]
              refine ⟨?_, ?_, ?_, ?_, ?_, ?_, ?_⟩
              case _ =>
                show s.constructCount + 1 ≤ 1
                omega
              · right; rw [hc0]
              · intro hn; simp at hn
              · intro hx; rw [hp0] at hx; cases hx
              · intro _; rw [hc0]
              · left; exact hr0
              · left; exact hr1
          | some v =>
              have hv : v = 0 := by
                rcases h2 with h2 | h2
                · rw [hsh] at h2; cases h2
                · rw [hsh] at h2; exact Option.some.inj h2
              subst hv
              have hstep : lazyStep s true =
                  { s with pc1 := .done, res1 := some 0
                           sawInited1 := some s.initDone } := by
                simp [lazyStep, hpc, hsh]
              rw [hstep]
              refine ⟨h1, h2, ?_, h4, ?_, h6, Or.inr rfl⟩
              · intro hn; rw [hsh] at hn; cases hn
              · intro hx; cases hx
      | awaitInit =>
          have hsh0 : s.shared = some 0 := h5 hpc
          have hstep : lazyStep s true =
              { s with initDone := true, pc1 := .done, res1 := s.shared
                       sawInited1 := some true } := by
            simp [lazyStep, hpc]
          rw [hstep]
          refine ⟨h1, h2, ?_, h4, ?_, h6, Or.inr hsh0⟩
          · intro hn; rw [hsh0] at hn; cases hn
          · intro hx; cases hx
      | done =>
          have hstep : lazyStep s true = s := by simp [lazyStep, hpc]
          rw [hstep]
          exact ⟨h1, h2, h3, h4, h5, h6, h7⟩

theorem lazyRun_inv (sched : List Bool) {s : LazyState} (h : LazyInv s) :
    LazyInv (lazyRun sched s) := by
  induction sched generalizing s with
  | nil => exact h
  | cons t rest ih => exact ih (lazyStep_inv h t)

theorem lazyInit_inv : LazyInv lazyInit := by
  refine ⟨Nat.zero_le 1, Or.inl rfl, ?_, ?_, ?_, Or.inl rfl, Or.inl rfl⟩
  · intro _; exact ⟨rfl, rfl, rfl, rfl, rfl⟩
  · intro hx; cases hx
  · intro hx; cases hx

/-- The negation of a double-initialization race: under every interleaving
of the two concurrent first callers, at most one `DocumentService`
construction (and hence at most one `initialize()` call) ever happens. -/
def atMostOneConstruction : Prop :=
  ∀ sched : List Bool, (lazyRun sched lazyInit).constructCount ≤ 1

/-- C8 (counterexample): in `get_document_service` the `None` check, the
`DocumentService(config)` construction and the assignment to the global
all run in one synchronous stretch before the only `await`, so under the
cooperative-suspension execution model no interleaving of two concurrent
first calls constructs (and hence initializes) the service twice: every
schedule performs at most one construction. -/
theorem lazy_init_no_double_construction : atMostOneConstruction :=
  fun sched => (lazyRun_inv sched lazyInit_inv).1

/-- C8 (amended): the lazy first-use initialization of
`get_document_service` carries no mutual-exclusion mechanism, but because
the `None` check and the assignment run synchronously before the only
`await`, two concurrent first calls cannot construct the service twice:
every interleaving performs at most one construction and all callers that
return an instance return the same one.  The race the missing guard does
leave open is different: since the global is assigned before
`await initialize()` completes, a concurrent first call can be handed the
shared instance while its initialization is still in progress — the
schedule below returns instance `0` to the second caller with
initialization not yet done.  A correct implementation must gate first
use so that exactly one initialization occurs and callers observe only
the fully initialized instance. -/
theorem lazy_init_single_construction_shared_instance :
    (∀ sched : List Bool, (lazyRun sched lazyInit).constructCount ≤ 1) ∧
    (∀ (sched : List Bool) (v0 v1 : Nat),
        (lazyRun sched lazyInit).res0 = some v0 →
        (lazyRun sched lazyInit).res1 = some v1 → v0 = v1) ∧
    ((lazyRun [false, true] lazyInit).constructCount = 1 ∧
      (lazyRun [false, true] lazyInit).res1 = some 0 ∧
      (lazyRun [false, true] lazyInit).sawInited1 = some false ∧
      (lazyRun [false, true] lazyInit).shared = some 0 ∧
      (lazyRun [false, true] lazyInit).initDone = false) := by
  refine ⟨?_, ?_, ?_⟩
  · intro sched
    exact (lazyRun_inv sched lazyInit_inv).1
  · intro sched v0 v1 hv0 hv1
    have hinv := lazyRun_inv sched lazyInit_inv
    rcases hinv.2.2.2.2.2.1 with hr | hr
    · rw [hr] at hv0; cases hv0
    · rcases hinv.2.2.2.2.2.2 with hs | hs
      · rw [hs] at hv1; cases hv1
      · rw [hr] at hv0
        rw [hs] at hv1
        rw [← Option.some.inj hv0, ← Option.some.inj hv1]
  · decide

theorem lazy_init_single_construction_shared_instance_witness :
    (lazyRun [false, true, false] lazyInit).constructCount ≤ 1 ∧ (0 : Nat) = 0 :=
  ⟨lazy_init_single_construction_shared_instance.1 [false, true, false],
   lazy_init_single_construction_shared_instance.2.1 [false, true, false] 0 0
     (by decide) (by decide)⟩

end ContextLens
